import Mathlib

/-!
Verification of `zod-persist` (`src/persistent-atom.ts`): a persistence
wrapper around a reactive single-value container.  The definitions below are a
shallow embedding of the engine's pure core: the versioned codec
(`serializeWithVersion` / `deserializeWithValidation`), the hydration
controller (`a.ready`), the guarded mutator (`a.set`), the write scheduler
(`write` / `flush` / `setAndFlush` and the debounce timer), translated
directly from the TypeScript source.  JSON values are modelled as an abstract
syntax tree; `JSON.parse` applied to a string produced by `JSON.stringify` is
modelled as the identity on that tree.  Console logging, which never affects
observable state, is not modelled.
-/

set_option autoImplicit false

namespace ZodPersist

/-- Abstract syntax of a JSON value.  Numbers are modelled as integers: every
version tag the engine manipulates is an integer, and the codec treats the
payload opaquely, so the integer-numbered fragment is representative. -/
inductive Json where
  | null
  | bool (b : Bool)
  | num (n : Int)
  | str (s : String)
  | arr (elems : List Json)
  | obj (fields : List (String × Json))

/-- Property access on a parsed JSON object (objects produced by `JSON.parse`
have distinct keys, so first-match lookup is exact). -/
def lookupField : List (String × Json) → String → Option Json
  | [], _ => none
  | (k, v) :: rest, key => if k = key then some v else lookupField rest key

/-- A raw stored string: either it parses to a JSON value or it is malformed
(`JSON.parse` throws).  `JSON.stringify` output is always well formed. -/
inductive RawString where
  | malformed (s : String)
  | wellFormed (j : Json)

/-- Model of `JSON.parse` (source line 85): the error carries the message
interpolated into the thrown `Error`. -/
def jsParse : RawString → Except String Json
  | .malformed s => .error s
  | .wellFormed j => .ok j

/-- Errors raised by the hydration pipeline (decode, migration, schema
validation).  The schema's rejection value (a ZodError) is opaque to the
engine, so it is modelled as a bare constructor. -/
inductive HydrationError where
  | decodeError (msg : String)
  | migrationError (version : Int) (msg : String)
  | validationError
  deriving DecidableEq

/-- A migration step `(oldData: unknown) => unknown` that may throw. -/
abbrev Migration := Json → Except String Json

/-- Construction-time options (source lines 14–28 and their defaults at
lines 52–61).  `migrations` is the record keyed by target version;
`schema` models `safeParse` (`some` = success with the returned data,
`none` = failure); `onCorruption` is the fallback producer, which may throw
(modelled as `Except.error`). -/
structure Config where
  version : Int := 1
  migrations : Int → Option Migration := fun _ => none
  schema : Option (Json → Option Json) := none
  onCorruption : Option (HydrationError → Except String Json) := none
  debounceMs : Option Nat := none
  isEqual : Option (Json → Json → Bool) := none

/-- `serializeWithVersion` (source lines 72–78): wrap the value in the
`{version, data}` envelope and stringify it. -/
def serializeWithVersion (cfg : Config) (value : Json) : RawString :=
  .wellFormed (.obj [("version", .num cfg.version), ("data", value)])

/-- Envelope detection and unwrapping (source lines 90–108): a parsed value
that is an object with both a `"version"` and a `"data"` property is a
versioned envelope; anything else is legacy data at version 0.  (In JS,
`typeof parsed === 'object'` also admits arrays, but an array produced by
`JSON.parse` never has a `"version"` property, so arrays are legacy data.) -/
def parseEnvelope : Json → Json × Json
  | .obj fields =>
    match lookupField fields "version", lookupField fields "data" with
    | some v, some d => (v, d)
    | _, _ => (.num 0, .obj fields)
  | j => (.num 0, j)

/-- JS `ToNumber` coercion of the stored version field, as used by the
comparison `dataVersion < version` (source line 111).  `none` models `NaN`,
for which every comparison is false.  Strings are coerced for integer
numerals; other strings, arrays and objects are modelled as `NaN` (JS coerces
a few of those to numbers, a case no stored record in scope exercises). -/
def jsToNumber : Json → Option Int
  | .null => some 0
  | .bool b => some (if b then 1 else 0)
  | .num n => some n
  | .str s => s.toInt?
  | .arr _ => none
  | .obj _ => none

/-- The versions visited by the migration `for` loop starting above `v0`:
`rangeFrom v0 n = [v0+1, v0+2, ..., v0+n]`. -/
def rangeFrom (v0 : Int) : Nat → List Int
  | 0 => []
  | n + 1 => (v0 + 1) :: rangeFrom (v0 + 1) n

/-- The versions visited by the migration `for` loop (source line 116):
`v` from `dataVersion + 1` to `version` inclusive, in ascending order. -/
def migrationRange (v0 vT : Int) : List Int :=
  rangeFrom v0 (vT - v0).toNat

/-- The body of the migration loop (source lines 116–132): for each visited
version, if a migration is registered, replace the data with its result; a
throwing migration aborts with a `MigrationError` naming the failing
version. -/
def runMigrations (migrations : Int → Option Migration) :
    List Int → Json → Except HydrationError Json
  | [], d => .ok d
  | v :: rest, d =>
    match migrations v with
    | none => runMigrations migrations rest d
    | some f =>
      match f d with
      | .error msg =>
        .error (.migrationError v ("Migration to version failed: " ++ msg))
      | .ok d1 => runMigrations migrations rest d1

/-- The final schema-validation step (source lines 136–144): with no schema
the migrated data is returned as `T`; with a schema, `safeParse` failure
throws the validation error and success returns the parsed data. -/
def applySchema (schema : Option (Json → Option Json)) (d : Json) :
    Except HydrationError Json :=
  match schema with
  | none => .ok d
  | some s =>
    match s d with
    | none => .error .validationError
    | some out => .ok out

/-- `deserializeWithValidation` (source lines 81–145): parse, detect the
envelope, run migrations when the stored version is below the target, then
validate with the schema if one is configured. -/
def deserializeWithValidation (cfg : Config) (raw : RawString) :
    Except HydrationError Json :=
  match jsParse raw with
  | .error msg => .error (.decodeError ("Failed to parse stored data: " ++ msg))
  | .ok parsed =>
    match parseEnvelope parsed with
    | (dataVersion, data0) =>
      let migrated : Except HydrationError Json :=
        match jsToNumber dataVersion with
        | some k =>
          if k < cfg.version then
            runMigrations cfg.migrations (migrationRange k cfg.version) data0
          else .ok data0
        | none => .ok data0
      match migrated with
      | .error e => .error e
      | .ok d => applySchema cfg.schema d

/-- The storage adapter together with the behaviour of its calls for one
hydration/write episode: `content` is what `getItem` resolves to (`none`
models `null`/`undefined`, "no record"); `setItemError` is `some m` when
`setItem` rejects with message `m`; `filePath` and `hasCreateBackup` mirror
the optional adapter fields used by the backup step. -/
structure Storage where
  content : Option RawString := none
  setItemError : Option String := none
  filePath : Option String := none
  hasCreateBackup : Bool := false

/-- `write` (source lines 147–157): serialize the value, call `setItem`, and
rethrow any failure after logging it.  On success the result carries the
string handed to the adapter. -/
def write (cfg : Config) (st : Storage) (value : Json) : Except String RawString :=
  match st.setItemError with
  | some m => .error m
  | none => .ok (serializeWithVersion cfg value)

/-- Outcome of the hydration task `a.ready` (source lines 200–260): the atom
value once the task settles, whether the readiness promise resolved or
rejected, every serialized value handed to `setItem` during hydration, and
whether the adapter's backup hook was invoked. -/
structure HydrateResult where
  value : Json
  ready : Except HydrationError Unit
  writeAttempts : List RawString
  backupInvoked : Bool

/-- `a.ready` (source lines 200–236): read; absent record keeps the initial
value; a decoded record is committed through the raw setter; on any failure,
attempt a backup, then — if a fallback producer is configured and succeeds —
commit the fallback through the raw setter and persist it; if the producer
throws, or none is configured, or the persist of the fallback rejects, the
readiness promise rejects with the original triggering error.  The
best-effort backup step (source lines 159–177) only logs its own failures and
never alters the value, the readiness outcome or the main record. -/
def hydrate (cfg : Config) (st : Storage) (initial : Json) : HydrateResult :=
  match st.content with
  | none =>
    { value := initial, ready := .ok (), writeAttempts := [],
      backupInvoked := false }
  | some raw =>
    match deserializeWithValidation cfg raw with
    | .ok data =>
      { value := data, ready := .ok (), writeAttempts := [],
        backupInvoked := false }
    | .error e =>
      match cfg.onCorruption with
      | none =>
        { value := initial, ready := .error e, writeAttempts := [],
          backupInvoked := st.filePath.isSome && st.hasCreateBackup }
      | some f =>
        match f e with
        | .error _ =>
          { value := initial, ready := .error e, writeAttempts := [],
            backupInvoked := st.filePath.isSome && st.hasCreateBackup }
        | .ok fallback =>
          match st.setItemError with
          | some _ =>
            { value := fallback, ready := .error e,
              writeAttempts := [serializeWithVersion cfg fallback],
              backupInvoked := st.filePath.isSome && st.hasCreateBackup }
          | none =>
            { value := fallback, ready := .ok (),
              writeAttempts := [serializeWithVersion cfg fallback],
              backupInvoked := st.filePath.isSome && st.hasCreateBackup }

/-- In-memory atom state: the current value and the `isHydrationComplete`
flag (source lines 63–66; the flag is set at line 238, after the hydration
body settles successfully). -/
structure AtomState where
  value : Json
  isHydrationComplete : Bool

/-- Errors thrown synchronously by the guarded `a.set`. -/
inductive SetError where
  | notReady
  | validation
  deriving DecidableEq

/-- Outcome of one guarded `a.set` call: the resulting state, whether the
call threw, and the values delivered to subscribers (`baseSet`
notifications — the only trigger of the automatic write path). -/
structure SetOutcome where
  state : AtomState
  result : Except SetError Unit
  notified : List Json

/-- The commit tail of `a.set` (source lines 196–197): the `isEqual`
suppression, then `baseSet(next)`, which commits the value and notifies
subscribers. -/
def guardedSetCommit (cfg : Config) (st : AtomState) (next : Json) : SetOutcome :=
  match cfg.isEqual with
  | some eq =>
    if eq st.value next then { state := st, result := .ok (), notified := [] }
    else
      { state := { st with value := next }, result := .ok (), notified := [next] }
  | none =>
    { state := { st with value := next }, result := .ok (), notified := [next] }

/-- `a.set` (source lines 179–198): throw before hydration completes;
validate with the schema (a rejection throws the validation error and the
validated data replaces `next` on success); then the equality-suppressed
commit. -/
def guardedSet (cfg : Config) (st : AtomState) (next : Json) : SetOutcome :=
  if st.isHydrationComplete then
    match cfg.schema with
    | some s =>
      match s next with
      | none => { state := st, result := .error .validation, notified := [] }
      | some next1 => guardedSetCommit cfg st next1
    | none => guardedSetCommit cfg st next
  else { state := st, result := .error .notReady, notified := [] }

/-- The automatic subscription-triggered write (source lines 242–247 and
251–256): `write(value).catch(console.error)` — a rejection is caught and
logged, never re-raised. -/
def subscriptionWrite (cfg : Config) (st : Storage) (value : Json) :
    Except String Unit :=
  match write cfg st value with
  | .error _ => .ok ()
  | .ok _ => .ok ()

/-- One automatic-write step as seen by the atom: the subscriber body touches
no atom state, so the state passes through unchanged alongside the (always
non-throwing) write outcome. -/
def autoWriteStep (cfg : Config) (st : Storage) (a : AtomState) (value : Json) :
    AtomState × Except String Unit :=
  (a, subscriptionWrite cfg st value)

/-- The writes triggered by a batch of subscriber notifications (immediate
mode: one write attempt per notification). -/
def notificationWrites (cfg : Config) (st : Storage) (notified : List Json) :
    List (Except String Unit) :=
  notified.map (subscriptionWrite cfg st)

/-- `a.flush` (source lines 262–268): clear any pending debounce timer, then
write the current value, propagating a write failure to the caller. -/
def flush (cfg : Config) (st : Storage) (_pending : Option (Nat × Json))
    (current : Json) : Option (Nat × Json) × Except String RawString :=
  (none, write cfg st current)

/-- Errors surfaced by `setAndFlush`: a throw from the guarded set, or the
flushed write's rejection. -/
inductive OpError where
  | setFailed (e : SetError)
  | writeFailed (msg : String)
  deriving DecidableEq

/-- `a.setAndFlush` (source lines 270–278): run the guarded set (its throw
propagates), then flush; the `isFlushing` flag only suppresses the duplicate
subscription-triggered write for the duration and does not affect the
outcome modelled here. -/
def setAndFlush (cfg : Config) (storage : Storage) (st : AtomState)
    (pending : Option (Nat × Json)) (next : Json) :
    AtomState × Option (Nat × Json) × Except OpError Unit :=
  let o := guardedSet cfg st next
  match o.result with
  | .error e => (o.state, pending, .error (.setFailed e))
  | .ok _ =>
    match flush cfg storage pending o.state.value with
    | (p1, .error m) => (o.state, p1, .error (.writeFailed m))
    | (p1, .ok _) => (o.state, p1, .ok ())

/-- Debounced scheduling (source lines 248–258) over a timestamped sequence
of committed set notifications: each notification clears any pending timer —
unless that timer's deadline has already passed, in which case its write
already fired — and arms a fresh timer at `now + delay` carrying the
notified value; after the last notification the surviving timer fires.
Returns the values handed to `write`, in order. -/
def debounceRun (delay : Nat) :
    Option (Nat × Json) → List (Nat × Json) → List Json
  | none, [] => []
  | some (_, pv), [] => [pv]
  | none, (t, v) :: rest => debounceRun delay (some (t + delay, v)) rest
  | some (ft, pv), (t, v) :: rest =>
    if ft ≤ t then pv :: debounceRun delay (some (t + delay, v)) rest
    else debounceRun delay (some (t + delay, v)) rest

/-- The storage writes produced by a timestamped sequence of committed set
notifications under a configured debounce delay, starting with no timer
armed. -/
def debounceWrites (delay : Nat) (events : List (Nat × Json)) : List Json :=
  debounceRun delay none events

/-- Whether every gap between consecutive notifications is strictly shorter
than the debounce delay. -/
def gapsLt (delay : Nat) : List (Nat × Json) → Bool
  | (t1, _) :: (t2, v2) :: rest =>
    decide (t2 < t1 + delay) && gapsLt delay ((t2, v2) :: rest)
  | _ => true

/-- The migration chain exactly as the specification words it, as a recursion
on the number of outstanding versions: with fuel `n` and target `vT`, apply
the step for version `vT - n + 1` — i.e. versions `v0+1, v0+2, ..., vT` in
ascending order when started with fuel `vT - v0` — skipping a version with no
registered migration, and aborting with a `MigrationError` naming the
failing version when a migration throws. -/
def migrationChainSpecAux (m : Int → Option Migration) (vT : Int) :
    Nat → Json → Except HydrationError Json
  | 0, d => .ok d
  | n + 1, d =>
    match m (vT - n) with
    | none => migrationChainSpecAux m vT n d
    | some f =>
      match f d with
      | .error msg =>
        .error (.migrationError (vT - n) ("Migration to version failed: " ++ msg))
      | .ok d1 => migrationChainSpecAux m vT n d1

/-- The specification's migration chain from stored version `v0` to target
version `vT`. -/
def migrationChainSpec (m : Int → Option Migration) (v0 vT : Int) (d : Json) :
    Except HydrationError Json :=
  migrationChainSpecAux m vT (vT - v0).toNat d

theorem runMigrations_rangeFrom (m : Int → Option Migration) :
    ∀ (n : Nat) (v0 : Int) (d : Json),
      runMigrations m (rangeFrom v0 n) d
        = migrationChainSpecAux m (v0 + n) n d := by
  intro n
  induction n with
  | zero => intro v0 d; rfl
  | succ k ih =>
    intro v0 d
    have harith : v0 + ((k : Int) + 1) - (k : Int) = v0 + 1 := by ring
    simp only [rangeFrom, runMigrations, migrationChainSpecAux, Nat.cast_add,
      Nat.cast_one, harith]
    have htgt : v0 + ((k : Int) + 1) = (v0 + 1) + (k : Int) := by ring
    cases m (v0 + 1) with
    | none => dsimp only; rw [ih (v0 + 1) d, htgt]
    | some f =>
      dsimp only
      cases f d with
      | error msg => rfl
      | ok d1 => dsimp only; rw [ih (v0 + 1) d1, htgt]

/-- The migration loop over `migrationRange` coincides with the
specification's chain whenever the stored version does not exceed the
target. -/
theorem runMigrations_eq_chainSpec (m : Int → Option Migration) (v0 vT : Int)
    (h : v0 ≤ vT) (d : Json) :
    runMigrations m (migrationRange v0 vT) d = migrationChainSpec m v0 vT d := by
  unfold migrationRange migrationChainSpec
  rw [runMigrations_rangeFrom m (vT - v0).toNat v0 d]
  have h1 : v0 + (((vT - v0).toNat : Nat) : Int) = vT := by omega
  rw [h1]

/-- The source's `isVersioned` condition (lines 91–95): the parsed value is a
(non-null) object with both a `"version"` and a `"data"` property. -/
def isVersionedJson : Json → Bool
  | .obj fields =>
    (lookupField fields "version").isSome && (lookupField fields "data").isSome
  | _ => false

/-- The acceptance of a value by the configured schema: with no schema every
value is accepted; with a schema, `safeParse` succeeds and returns the value
itself. -/
def schemaAccepts (schema : Option (Json → Option Json)) (v : Json) : Prop :=
  match schema with
  | none => True
  | some s => s v = some v

theorem parseEnvelope_wrapped (v p : Json) :
    parseEnvelope (Json.obj [("version", v), ("data", p)]) = (v, p) := rfl

/-- C4: for every stored record with version `v0 < targetVersion` and every
migrations map, decoding applies exactly the registered migrations keyed
`v0+1` through `targetVersion` in ascending order, each replacing the
payload; an unregistered version leaves the payload unchanged for that step;
and a throwing migration aborts decoding with a migration error naming the
failing version — i.e. decoding is the specification's migration chain,
followed by the schema step. -/
theorem c4_migration_chain (cfg : Config) (v0 : Int) (p : Json)
    (hv : v0 < cfg.version) :
    deserializeWithValidation cfg
        (RawString.wellFormed (Json.obj [("version", Json.num v0), ("data", p)]))
      = match migrationChainSpec cfg.migrations v0 cfg.version p with
        | Except.error e => Except.error e
        | Except.ok d => applySchema cfg.schema d := by
  simp only [deserializeWithValidation, jsParse, parseEnvelope_wrapped, jsToNumber]
  rw [if_pos hv,
    runMigrations_eq_chainSpec cfg.migrations v0 cfg.version (le_of_lt hv) p]

/-- C4 witness: a record at version 1, migrations registered for versions 2
and 3 (none for 3 here: version 2 wraps the payload in an array), target
version 3. -/
theorem c4_migration_chain_witness :
    deserializeWithValidation
        { version := 3,
          migrations := fun v =>
            if v = 2 then some (fun d => Except.ok (Json.arr [d])) else none }
        (RawString.wellFormed (Json.obj [("version", Json.num 1), ("data", Json.num 5)]))
      = match migrationChainSpec
            ({ version := 3,
               migrations := fun v =>
                 if v = 2 then some (fun d => Except.ok (Json.arr [d])) else none } :
              Config).migrations 1 3 (Json.num 5) with
        | Except.error e => Except.error e
        | Except.ok d =>
          applySchema
            ({ version := 3,
               migrations := fun v =>
                 if v = 2 then some (fun d => Except.ok (Json.arr [d])) else none } :
              Config).schema d :=
  c4_migration_chain
    { version := 3,
      migrations := fun v =>
        if v = 2 then some (fun d => Except.ok (Json.arr [d])) else none }
    1 (Json.num 5) (by decide)

/-- C5: decoding the record produced by encoding a schema-accepted value at
the target version yields the value back (for every migrations map — no
migration fires at equal versions), and re-encoding the decoded result
reproduces the same record. -/
theorem c5_round_trip (cfg : Config) (v : Json) (h : schemaAccepts cfg.schema v) :
    deserializeWithValidation cfg (serializeWithVersion cfg v) = .ok v
    ∧ ∀ w, deserializeWithValidation cfg (serializeWithVersion cfg v) = .ok w →
        serializeWithVersion cfg w = serializeWithVersion cfg v := by
  have hmain : deserializeWithValidation cfg (serializeWithVersion cfg v) = .ok v := by
    simp only [serializeWithVersion, deserializeWithValidation, jsParse,
      parseEnvelope_wrapped, jsToNumber]
    rw [if_neg (lt_irrefl cfg.version)]
    unfold applySchema schemaAccepts at *
    cases hs : cfg.schema with
    | none => rfl
    | some s =>
      rw [hs] at h
      dsimp only at h ⊢
      rw [h]
  refine ⟨hmain, fun w hw => ?_⟩
  rw [hmain] at hw
  injection hw with hw1
  rw [hw1]

/-- C5 witness: a value accepted by an identity-accepting schema round-trips
at version 1. -/
theorem c5_round_trip_witness :
    deserializeWithValidation { schema := some fun j => some j }
        (serializeWithVersion { schema := some fun j => some j } (Json.num 7))
      = .ok (Json.num 7) :=
  (c5_round_trip { schema := some fun j => some j } (Json.num 7) rfl).1

/-- C8: a stored record whose version strictly exceeds the target version is
decoded with no migration applied — the stored payload reaches the optional
schema-validation step unchanged, for every migrations map. -/
theorem c8_no_downgrade (cfg : Config) (v0 : Int) (p : Json)
    (h : cfg.version < v0) :
    deserializeWithValidation cfg
        (RawString.wellFormed (Json.obj [("version", Json.num v0), ("data", p)]))
      = applySchema cfg.schema p := by
  simp only [deserializeWithValidation, jsParse, parseEnvelope_wrapped, jsToNumber]
  rw [if_neg (by omega)]

/-- C8 witness: a version-2 record against target version 1, with a migration
registered for version 1 that would change the payload if it ran. -/
theorem c8_no_downgrade_witness :
    deserializeWithValidation
        { version := 1,
          migrations := fun _ => some fun _ => Except.ok Json.null }
        (RawString.wellFormed (Json.obj [("version", Json.num 2), ("data", Json.num 9)]))
      = applySchema
          ({ version := 1,
             migrations := fun _ => some fun _ => Except.ok Json.null } :
            Config).schema (Json.num 9) :=
  c8_no_downgrade
    { version := 1, migrations := fun _ => some fun _ => Except.ok Json.null }
    2 (Json.num 9) (by decide)

/-- C10: envelope detection is by key presence only — every parsed object
with both a `"version"` and a `"data"` property is treated as a versioned
envelope whose version tag and payload are exactly those two fields,
whatever the version field's type or value; every other parsed value is
treated as a legacy version-0 payload; hence an object with both keys is
never itself taken as the payload of a version-0 record. -/
theorem c10_envelope_key_presence (fields : List (String × Json)) (j v d : Json)
    (hv : lookupField fields "version" = some v)
    (hd : lookupField fields "data" = some d)
    (hj : isVersionedJson j = false) :
    isVersionedJson (Json.obj fields) = true
    ∧ parseEnvelope (Json.obj fields) = (v, d)
    ∧ parseEnvelope j = (Json.num 0, j) := by
  refine ⟨?_, ?_, ?_⟩
  · simp [isVersionedJson, hv, hd]
  · simp only [parseEnvelope]
    rw [hv, hd]
  · cases j with
    | obj fs =>
      simp only [isVersionedJson, Bool.and_eq_false_iff] at hj
      simp only [parseEnvelope]
      cases hlv : lookupField fs "version" with
      | none => rfl
      | some w =>
        cases hld : lookupField fs "data" with
        | none => rfl
        | some e => rw [hlv, hld] at hj; simp at hj
    | null => rfl
    | bool b => rfl
    | num n => rfl
    | str s => rfl
    | arr elems => rfl

/-- C10 witness: an object whose `version` field is a string is still treated
as an envelope; a value missing the `data` key is legacy version-0. -/
theorem c10_envelope_key_presence_witness :
    isVersionedJson
        (Json.obj [("version", Json.str "banana"), ("data", Json.num 1)]) = true
    ∧ parseEnvelope
          (Json.obj [("version", Json.str "banana"), ("data", Json.num 1)])
        = (Json.str "banana", Json.num 1)
    ∧ parseEnvelope (Json.obj [("version", Json.num 1)])
        = (Json.num 0, Json.obj [("version", Json.num 1)]) :=
  c10_envelope_key_presence
    [("version", Json.str "banana"), ("data", Json.num 1)]
    (Json.obj [("version", Json.num 1)])
    (Json.str "banana") (Json.num 1) rfl rfl rfl

/-- C2: a `set` call made before hydration completes throws the not-ready
error, leaves the atom state (in particular its value) unchanged, notifies no
subscriber, and — since storage writes are triggered only by subscriber
notifications — causes no `setItem` call. -/
theorem c2_no_prehydration_set (cfg : Config) (st : AtomState) (next : Json)
    (h : st.isHydrationComplete = false) :
    guardedSet cfg st next
      = { state := st, result := .error .notReady, notified := [] }
    ∧ ∀ storage : Storage,
        notificationWrites cfg storage (guardedSet cfg st next).notified = [] := by
  have hg : guardedSet cfg st next
      = { state := st, result := .error .notReady, notified := [] } := by
    unfold guardedSet
    rw [h, if_neg Bool.false_ne_true]
  exact ⟨hg, fun storage => by rw [hg]; rfl⟩

/-- C2 witness: a pre-hydration `set` on a freshly constructed atom. -/
theorem c2_no_prehydration_set_witness :
    guardedSet {} { value := Json.num 0, isHydrationComplete := false } (Json.num 1)
      = { state := { value := Json.num 0, isHydrationComplete := false },
          result := .error .notReady, notified := [] } :=
  (c2_no_prehydration_set {} { value := Json.num 0, isHydrationComplete := false }
    (Json.num 1) rfl).1

/-- C3: when hydration fails and either no fallback producer is configured or
the configured producer itself throws, the readiness promise rejects with the
original triggering hydration error, not with the producer's error. -/
theorem c3_original_error_propagates (cfg : Config) (st : Storage) (init : Json)
    (raw : RawString) (e : HydrationError)
    (hc : st.content = some raw)
    (hd : deserializeWithValidation cfg raw = .error e)
    (hf : cfg.onCorruption = none
          ∨ ∃ f msg, cfg.onCorruption = some f ∧ f e = Except.error msg) :
    (hydrate cfg st init).ready = .error e := by
  unfold hydrate
  rw [hc]
  dsimp only
  rw [hd]
  rcases hf with hf | ⟨f, msg, hf, hmsg⟩
  · rw [hf]
  · rw [hf]
    dsimp only
    rw [hmsg]

/-- C3 witness: an unparseable record, with a fallback producer that itself
throws; `ready` rejects with the decode error. -/
theorem c3_original_error_propagates_witness :
    (hydrate { onCorruption := some fun _ => Except.error "fallback broke" }
        { content := some (RawString.malformed "bad") } (Json.num 0)).ready
      = .error (HydrationError.decodeError "Failed to parse stored data: bad") :=
  c3_original_error_propagates
    { onCorruption := some fun _ => Except.error "fallback broke" }
    { content := some (RawString.malformed "bad") } (Json.num 0)
    (RawString.malformed "bad")
    (HydrationError.decodeError "Failed to parse stored data: bad")
    rfl rfl
    (Or.inr ⟨fun _ => Except.error "fallback broke", "fallback broke", rfl, rfl⟩)

/-- C6: with an adapter whose write rejects, `flush` rejects with that error
and `setAndFlush` propagates it, while the automatic subscription-triggered
write is caught — it raises nothing and leaves the atom state unchanged. -/
theorem c6_write_error_paths (cfg : Config) (storage : Storage) (st : AtomState)
    (pending : Option (Nat × Json)) (next : Json) (m : String)
    (hw : storage.setItemError = some m)
    (hh : st.isHydrationComplete = true)
    (hs : cfg.schema = none) (he : cfg.isEqual = none) :
    (flush cfg storage pending st.value).2 = .error m
    ∧ (setAndFlush cfg storage st pending next).2.2
        = .error (OpError.writeFailed m)
    ∧ autoWriteStep cfg storage st next = (st, .ok ()) := by
  have hwr : ∀ v : Json, write cfg storage v = .error m := by
    intro v
    unfold write
    rw [hw]
  refine ⟨?_, ?_, ?_⟩
  · unfold flush
    rw [hwr]
  · have hset : guardedSet cfg st next
        = { state := { st with value := next }, result := .ok (),
            notified := [next] } := by
      unfold guardedSet guardedSetCommit
      rw [hh, hs, he, if_pos rfl]
    unfold setAndFlush flush
    rw [hset]
    dsimp only
    rw [hwr]
  · unfold autoWriteStep subscriptionWrite
    rw [hwr]

/-- C6 witness: an always-rejecting adapter under a hydrated atom. -/
theorem c6_write_error_paths_witness :
    (flush {} { setItemError := some "disk full" } none
        ({ value := Json.num 0, isHydrationComplete := true } : AtomState).value).2
      = .error "disk full"
    ∧ (setAndFlush {} { setItemError := some "disk full" }
          { value := Json.num 0, isHydrationComplete := true } none (Json.num 1)).2.2
        = .error (OpError.writeFailed "disk full")
    ∧ autoWriteStep {} { setItemError := some "disk full" }
          { value := Json.num 0, isHydrationComplete := true } (Json.num 1)
        = ({ value := Json.num 0, isHydrationComplete := true }, .ok ()) :=
  c6_write_error_paths {} { setItemError := some "disk full" }
    { value := Json.num 0, isHydrationComplete := true } none (Json.num 1)
    "disk full" rfl rfl rfl rfl

theorem debounceRun_armed (delay : Nat) :
    ∀ (rest : List (Nat × Json)) (t : Nat) (v : Json),
      gapsLt delay ((t, v) :: rest) = true →
      debounceRun delay (some (t + delay, v)) rest
        = [(((t, v) :: rest).getLast (List.cons_ne_nil _ _)).2] := by
  intro rest
  induction rest with
  | nil => intro t v _; rfl
  | cons hd tl ih =>
    obtain ⟨t2, v2⟩ := hd
    intro t v h
    simp only [gapsLt, Bool.and_eq_true, decide_eq_true_eq] at h
    simp only [debounceRun]
    rw [if_neg (by omega), ih t2 v2 h.2]
    simp [List.getLast_cons]

/-- C7: under a configured debounce delay, a nonempty sequence of committed
`set` notifications whose gaps are all strictly shorter than the delay
produces exactly one storage write, carrying the last value set; no
intermediate value is ever handed to `setItem`. -/
theorem c7_debounce_collapse (delay t : Nat) (v : Json)
    (rest : List (Nat × Json))
    (h : gapsLt delay ((t, v) :: rest) = true) :
    debounceWrites delay ((t, v) :: rest)
      = [(((t, v) :: rest).getLast (List.cons_ne_nil _ _)).2] := by
  unfold debounceWrites
  simp only [debounceRun]
  exact debounceRun_armed delay rest t v h

/-- C7 witness: `set(1); set(2); set(3)` at times 0, 50 and 90 under a
debounce window of 100 yields the single write `3`. -/
theorem c7_debounce_collapse_witness :
    debounceWrites 100 [(0, Json.num 1), (50, Json.num 2), (90, Json.num 3)]
      = [Json.num 3] :=
  (c7_debounce_collapse 100 0 (Json.num 1) [(50, Json.num 2), (90, Json.num 3)]
    (by decide)).trans rfl

/-- C9: a fallback value produced by the `onCorruption` handler is committed
to the atom through the raw setter and persisted, without being validated by
the configured schema — the conclusion holds for every configuration,
including one whose schema would reject the fallback value. -/
theorem c9_fallback_unvalidated (cfg : Config) (st : Storage) (init : Json)
    (raw : RawString) (e : HydrationError)
    (f : HydrationError → Except String Json) (fb : Json)
    (hc : st.content = some raw)
    (hd : deserializeWithValidation cfg raw = .error e)
    (hf : cfg.onCorruption = some f) (hfb : f e = .ok fb)
    (hok : st.setItemError = none) :
    (hydrate cfg st init).value = fb
    ∧ (hydrate cfg st init).writeAttempts = [serializeWithVersion cfg fb]
    ∧ (hydrate cfg st init).ready = .ok () := by
  unfold hydrate
  rw [hc]
  dsimp only
  rw [hd]
  dsimp only
  rw [hf]
  dsimp only
  rw [hfb]
  dsimp only
  rw [hok]
  exact ⟨rfl, rfl, rfl⟩

/-- C9 witness: a schema that rejects every value, an unparseable record, and
a fallback producing 7: the atom holds 7, a serialization of 7 is persisted,
and `ready` resolves. -/
theorem c9_fallback_unvalidated_witness :
    (hydrate
        { schema := some fun _ => none,
          onCorruption := some fun _ => Except.ok (Json.num 7) }
        { content := some (RawString.malformed "oops") } (Json.num 0)).value
      = Json.num 7
    ∧ (hydrate
          { schema := some fun _ => none,
            onCorruption := some fun _ => Except.ok (Json.num 7) }
          { content := some (RawString.malformed "oops") } (Json.num 0)).writeAttempts
        = [serializeWithVersion
            { schema := some fun _ => none,
              onCorruption := some fun _ => Except.ok (Json.num 7) } (Json.num 7)]
    ∧ (hydrate
          { schema := some fun _ => none,
            onCorruption := some fun _ => Except.ok (Json.num 7) }
          { content := some (RawString.malformed "oops") } (Json.num 0)).ready
        = .ok () :=
  c9_fallback_unvalidated
    { schema := some fun _ => none,
      onCorruption := some fun _ => Except.ok (Json.num 7) }
    { content := some (RawString.malformed "oops") } (Json.num 0)
    (RawString.malformed "oops")
    (HydrationError.decodeError "Failed to parse stored data: oops")
    (fun _ => Except.ok (Json.num 7)) (Json.num 7) rfl rfl rfl rfl rfl

/-- C1 counterexample: with a fallback producer returning 42 and an adapter
whose write rejects, hydration of an unparseable record ends in the Failed
state (the readiness promise rejects with the decode error) while the atom's
value is the already-committed fallback, not the constructor-supplied initial
value 0 — the fallback is committed through the raw setter before its
persist is attempted, and the failed persist does not roll it back. -/
theorem c1_failed_state_counterexample :
    (hydrate { onCorruption := some fun _ => Except.ok (Json.num 42) }
        { content := some (RawString.malformed "garbage"),
          setItemError := some "disk full" } (Json.num 0)).ready
      = .error (HydrationError.decodeError "Failed to parse stored data: garbage")
    ∧ (hydrate { onCorruption := some fun _ => Except.ok (Json.num 42) }
          { content := some (RawString.malformed "garbage"),
            setItemError := some "disk full" } (Json.num 0)).value
        ≠ Json.num 0 := by
  refine ⟨rfl, fun hcontra => ?_⟩
  have h42 : Json.num 42 = Json.num 0 := hcontra
  simp at h42

/-- C1 (amended): whenever hydration ends in the Failed state, the atom's
value equals the constructor-supplied initial value — except in the one case
where a configured `onCorruption` fallback producer succeeded and only the
subsequent persist of the fallback rejected, in which case the value is the
committed fallback. -/
theorem c1_failed_hydration_value (cfg : Config) (st : Storage) (init : Json)
    (e : HydrationError)
    (h : (hydrate cfg st init).ready = .error e) :
    (hydrate cfg st init).value = init
    ∨ ∃ f fb, cfg.onCorruption = some f ∧ f e = .ok fb
        ∧ st.setItemError.isSome = true ∧ (hydrate cfg st init).value = fb := by
  unfold hydrate at h ⊢
  cases hc : st.content with
  | none =>
    rw [hc] at h
    exact absurd h (by simp)
  | some raw =>
    rw [hc] at h
    dsimp only at h ⊢
    cases hd : deserializeWithValidation cfg raw with
    | ok data =>
      rw [hd] at h
      exact absurd h (by simp)
    | error e0 =>
      rw [hd] at h
      dsimp only at h ⊢
      cases hf : cfg.onCorruption with
      | none =>
        exact Or.inl rfl
      | some f =>
        rw [hf] at h
        dsimp only at h ⊢
        cases hr : f e0 with
        | error msg =>
          rw [hr] at h
          exact Or.inl rfl
        | ok fb =>
          rw [hr] at h
          dsimp only at h ⊢
          cases hw : st.setItemError with
          | none =>
            rw [hw] at h
            exact absurd h (by simp)
          | some m =>
            rw [hw] at h
            dsimp only at h ⊢
            injection h with he
            subst he
            exact Or.inr ⟨f, fb, rfl, hr, rfl, rfl⟩

/-- C1 (amended) witness: no fallback producer, unparseable record — the
Failed state keeps the initial value 0. -/
theorem c1_failed_hydration_value_witness :
    (hydrate {} { content := some (RawString.malformed "x") } (Json.num 0)).value
      = Json.num 0
    ∨ ∃ f fb, ({} : Config).onCorruption = some f
        ∧ f (HydrationError.decodeError "Failed to parse stored data: x") = .ok fb
        ∧ ({ content := some (RawString.malformed "x") } : Storage).setItemError.isSome
            = true
        ∧ (hydrate {} { content := some (RawString.malformed "x") } (Json.num 0)).value
            = fb :=
  c1_failed_hydration_value {} { content := some (RawString.malformed "x") }
    (Json.num 0) (HydrationError.decodeError "Failed to parse stored data: x") rfl

end ZodPersist
